import Mathlib

/-!
Shallow embedding of the MMessenger chat client's data-management core
(`CloudStorageManager` / `StorageManager` / `ChatManager`, plus the
app-level `createChat` handler) from `src/unnamed/part_000`.

Browser `localStorage` is modelled as an association list from user keys
to stored profile records (the JSON serialization layer is the identity
in the model).  Stored profile fields that JavaScript code guards with
truthiness checks (`userData.chats || ...`, `if (!targetUserData.friendRequests)`)
are modelled as `Option`s.  Wall-clock values (`Date.now()`,
`new Date().toISOString()`, the `HH:MM` time string) are threaded in as
explicit parameters.
-/

/-- A chat message, as built by `ChatManager.addMessage`. -/
structure Message where
  author : String
  text : String
  time : String
  timestamp : String
  type : String
  fileData : Option String
  fileName : Option String
deriving DecidableEq

/-- A friend/request record: `{key, username, addedAt}` entries in `friends`
and `{key, username, sentAt}` entries in `friendRequests` / `sentFriendRequests`.
Both timestamp fields are optional so one type covers both shapes. -/
structure FriendRef where
  key : String
  username : String
  addedAt : Option String
  sentAt : Option String
deriving DecidableEq

/-- A chat record.  `id` and `name` are optional because persisted data can
lack them (`loadChats` filters on their truthiness: a numeric `id` is falsy
when `0` or absent, `name` is falsy when empty or absent).  `messages` is
optional because `addMessage` guards `if (!chat.messages)`. -/
structure Chat where
  id : Option Nat
  name : Option String
  description : Option String
  type : Option String
  participants : Option (List String)
  messages : Option (List Message)
  createdAt : Option String
deriving DecidableEq

/-- The per-user profile record persisted by `saveChats` and read back by
`loadChats`.  All list fields are optional: records written by other code
paths (or hand-edited storage) may omit them. -/
structure UserData where
  username : String
  chats : Option (List Chat)
  friends : Option (List FriendRef)
  friendRequests : Option (List FriendRef)
  sentFriendRequests : Option (List FriendRef)
deriving DecidableEq

/-- The browser key/value store restricted to profile records: an
association list from user key to profile. -/
abbrev Store := List (String × UserData)

/-- `CloudStorageManager.loadUserData`: `localStorage.getItem` + JSON parse;
a missing record is `none`. -/
def loadUserData : Store → String → Option UserData
  | [], _ => none
  | p :: rest, k => if p.1 == k then some p.2 else loadUserData rest k

/-- `CloudStorageManager.saveUserData` on the success path:
`localStorage.setItem`, replacing the record under the key in place or
appending a fresh one. -/
def saveUserData : Store → String → UserData → Store
  | [], k, d => [(k, d)]
  | p :: rest, k, d => if p.1 == k then (k, d) :: rest else p :: saveUserData rest k d

/-- The in-memory working set owned by `ChatManager`. -/
structure ChatManagerState where
  chats : List Chat
  friends : List FriendRef
  friendRequests : List FriendRef
  sentFriendRequests : List FriendRef
deriving DecidableEq

/-- `ChatManager.initializeChats`: the synthetic Favorites chat. -/
def initializeChats : List Chat :=
  [{ id := some 1, name := some "Избранное", description := none,
     type := some "favorites", participants := none, messages := some [],
     createdAt := none }]

/-- Truthiness of `chat.id && chat.name` in the `loadChats` filter:
a numeric id is falsy when absent or `0`; a name is falsy when absent
or the empty string. -/
def chatTruthy (c : Chat) : Bool :=
  (c.id.getD 0 != 0) && (c.name.getD "" != "")

/-- `ChatManager.loadChats`: read the profile; on absence initialize fresh
state; otherwise take each field with its `|| fallback`, drop invalid
chats, and re-seed Favorites when the filtered list is empty. -/
def loadChats (st : Store) (userKey : String) : ChatManagerState :=
  match loadUserData st userKey with
  | some userData =>
    let chats0 := match userData.chats with
      | some cs => cs
      | none => initializeChats
    let chats1 := chats0.filter chatTruthy
    { chats := if chats1.length = 0 then initializeChats else chats1,
      friends := userData.friends.getD [],
      friendRequests := userData.friendRequests.getD [],
      sentFriendRequests := userData.sentFriendRequests.getD [] }
  | none =>
    { chats := initializeChats, friends := [], friendRequests := [],
      sentFriendRequests := [] }

/-- `ChatManager.saveChats`: serialize the whole working set into one
profile record and write it. -/
def saveChats (s : ChatManagerState) (st : Store) (userKey username : String) : Store :=
  saveUserData st userKey
    { username := username, chats := some s.chats, friends := some s.friends,
      friendRequests := some s.friendRequests,
      sentFriendRequests := some s.sentFriendRequests }

/-- JavaScript `String.prototype.trim()`: drop whitespace from both ends.
(Structurally recursive so that it evaluates inside the kernel, unlike
`String.trim`.) -/
def jsTrim (s : String) : String :=
  ⟨((s.data.dropWhile Char.isWhitespace).reverse.dropWhile Char.isWhitespace).reverse⟩

/-- `ChatManager.createChat`: trim the inputs, stamp the id from the clock,
append to the end of the chat list; returns the new chat. -/
def createChat (s : ChatManagerState) (name description : String)
    (nowMs : Nat) (nowIso : String) : ChatManagerState × Chat :=
  let newChat : Chat :=
    { id := some nowMs, name := some (jsTrim name),
      description := some (jsTrim description),
      type := none, participants := none, messages := some [],
      createdAt := some nowIso }
  ({ s with chats := s.chats ++ [newChat] }, newChat)

/-- The message record `ChatManager.addMessage` builds from its inputs.
`MsgInput` bundles the call's arguments together with the clock values. -/
structure MsgInput where
  author : String
  text : String
  type : String
  fileData : Option String
  fileName : Option String
  time : String
  timestamp : String
deriving DecidableEq

/-- The message object literal inside `addMessage`. -/
def mkMessage (i : MsgInput) : Message :=
  { author := i.author, text := jsTrim i.text, time := i.time,
    timestamp := i.timestamp, type := i.type, fileData := i.fileData,
    fileName := i.fileName }

/-- `ChatManager.addMessage`: ensure `messages` exists, push the new
message, then truncate to the last 1000 entries when over the cap
(`messages.slice(-1000)`). -/
def addMessage (chat : Chat) (i : MsgInput) : Chat :=
  let msgs := chat.messages.getD []
  let msgs := msgs ++ [mkMessage i]
  { chat with
    messages := some (if msgs.length > 1000 then msgs.drop (msgs.length - 1000) else msgs) }

/-- Iterated `addMessage` on one chat, for the 1001-appends property. -/
def addMessages (chat : Chat) (inputs : List MsgInput) : Chat :=
  inputs.foldl addMessage chat

/-- `ChatManager.addFriend`: no-op returning `false` when an entry with the
key exists; otherwise append `{key, username, addedAt}` and return `true`. -/
def addFriend (s : ChatManagerState) (friendKey friendUsername nowIso : String) :
    Bool × ChatManagerState :=
  if s.friends.any (fun f => f.key == friendKey) then
    (false, s)
  else
    (true, { s with friends := s.friends ++
      [{ key := friendKey, username := friendUsername, addedAt := some nowIso,
         sentAt := none }] })

/-- `ChatManager.sendFriendRequest`: refuse a duplicate send; otherwise push
`{key: targetUserKey, username: currentUsername, sentAt}` onto the sender's
own `sentFriendRequests`, and when the target's profile exists, push an
incoming `{key: currentUserKey, username: currentUsername, sentAt}` into it
and write it back. Returns (result, new in-memory state, new store). -/
def sendFriendRequest (s : ChatManagerState) (st : Store)
    (targetUserKey currentUserKey currentUsername nowIso : String) :
    Bool × ChatManagerState × Store :=
  if s.sentFriendRequests.any (fun r => r.key == targetUserKey) then
    (false, s, st)
  else
    let s' := { s with sentFriendRequests := s.sentFriendRequests ++
      [{ key := targetUserKey, username := currentUsername, addedAt := none,
         sentAt := some nowIso }] }
    match loadUserData st targetUserKey with
    | some targetUserData =>
      let reqs := targetUserData.friendRequests.getD []
      let targetUserData := { targetUserData with friendRequests := some (reqs ++
        [{ key := currentUserKey, username := currentUsername, addedAt := none,
           sentAt := some nowIso }]) }
      (true, s', saveUserData st targetUserKey targetUserData)
    | none => (true, s', st)

/-- `ChatManager.acceptFriendRequest`: add the requester via `addFriend`,
filter them out of the incoming requests, then load-mutate-save the
requester's profile: drop self from their `sentFriendRequests` (when the
field exists) and add self to their friends unless already present. -/
def acceptFriendRequest (s : ChatManagerState) (st : Store)
    (requesterKey requesterUsername currentUserKey currentUsername nowIso : String) :
    ChatManagerState × Store :=
  let s := (addFriend s requesterKey requesterUsername nowIso).2
  let s := { s with friendRequests := s.friendRequests.filter (fun r => r.key != requesterKey) }
  match loadUserData st requesterKey with
  | some requesterData =>
    let requesterData := match requesterData.sentFriendRequests with
      | some l => { requesterData with
          sentFriendRequests := some (l.filter (fun r => r.key != currentUserKey)) }
      | none => requesterData
    let fr := requesterData.friends.getD []
    let fr := if fr.any (fun f => f.key == currentUserKey) then fr
      else fr ++ [{ key := currentUserKey, username := currentUsername,
                    addedAt := some nowIso, sentAt := none }]
    let requesterData := { requesterData with friends := some fr }
    (s, saveUserData st requesterKey requesterData)
  | none => (s, st)

/-- `ChatManager.rejectFriendRequest`: purely local filter of the incoming
requests; the function touches no storage and no other field. -/
def rejectFriendRequest (s : ChatManagerState) (requesterKey : String) :
    ChatManagerState :=
  { s with friendRequests := s.friendRequests.filter (fun r => r.key != requesterKey) }

/-- `MMessengerApp.createChat`: validate the trimmed name, mutate the
in-memory chat list via `ChatManager.createChat`, then persist inside a
`try`; `saveOk` says whether `localStorage.setItem` succeeds.  On save
failure the `catch` only alerts: the in-memory mutation is kept and the
store is untouched.  Returns (success, in-memory state, store). -/
def appCreateChat (s : ChatManagerState) (st : Store) (saveOk : Bool)
    (nameInput descInput userKey username : String) (nowMs : Nat) (nowIso : String) :
    Bool × ChatManagerState × Store :=
  if jsTrim nameInput == "" then (false, s, st)
  else
    let s' := (createChat s (jsTrim nameInput) descInput nowMs nowIso).1
    if saveOk then (true, s', saveChats s' st userKey username)
    else (false, s', st)

/-- Writing a record and reading it back under the same key yields that
record (the `localStorage.setItem` / `getItem` round trip). -/
theorem loadUserData_saveUserData_self (st : Store) (k : String) (d : UserData) :
    loadUserData (saveUserData st k d) k = some d := by
  induction st with
  | nil => simp [saveUserData, loadUserData]
  | cons p rest ih =>
    simp only [saveUserData]
    split
    · simp [loadUserData]
    · rename_i h
      simp only [loadUserData, ih, if_neg]
      simp [h]

/-- C7: `rejectFriendRequest(requesterKey)` removes exactly the incoming
requests with the requester's key and changes nothing else: chats, friends
and `sentFriendRequests` are untouched, and — visible in its type, which
involves no `Store` — no stored profile is read or written. -/
theorem rejectFriendRequest_removes_locally_only (s : ChatManagerState) (requesterKey : String) :
    (rejectFriendRequest s requesterKey).friendRequests
        = s.friendRequests.filter (fun r => r.key != requesterKey) ∧
    (rejectFriendRequest s requesterKey).friendRequests.countP
        (fun r => r.key == requesterKey) = 0 ∧
    (rejectFriendRequest s requesterKey).chats = s.chats ∧
    (rejectFriendRequest s requesterKey).friends = s.friends ∧
    (rejectFriendRequest s requesterKey).sentFriendRequests = s.sentFriendRequests := by
  refine ⟨rfl, ?_, rfl, rfl, rfl⟩
  simp [rejectFriendRequest, List.countP_eq_zero, List.mem_filter]

/-- C2: for every store and key, `loadChats` leaves a non-empty chat list;
when the profile is absent the whole state is the fresh one, and when the
stored chat list is missing, empty or entirely invalid the chat list equals
`initializeChats` — the single Favorites chat with id 1 and no messages. -/
theorem loadChats_favorites_fallback (st : Store) (userKey : String) :
    (loadChats st userKey).chats ≠ [] ∧
    (loadUserData st userKey = none → loadChats st userKey =
      { chats := initializeChats, friends := [], friendRequests := [],
        sentFriendRequests := [] }) ∧
    (∀ ud, loadUserData st userKey = some ud →
      (ud.chats = none ∨ ∃ cs, ud.chats = some cs ∧ ∀ c ∈ cs, chatTruthy c = false) →
      (loadChats st userKey).chats = initializeChats) ∧
    (∃ c, initializeChats = [c] ∧ c.id = some 1 ∧ c.messages = some []) := by
  refine ⟨?_, ?_, ?_, ?_⟩
  · cases h : loadUserData st userKey with
    | none => simp [loadChats, h, initializeChats]
    | some ud =>
      simp only [loadChats, h]
      split
      · simp [initializeChats]
      · rename_i hlen
        intro hnil
        exact hlen (by simp [hnil])
  · intro h
    simp [loadChats, h]
  · intro ud hud hcase
    simp only [loadChats, hud]
    rcases hcase with hnone | ⟨cs, hcs, hall⟩
    · have hfilter : initializeChats.filter chatTruthy = initializeChats := by decide
      simp [hnone, hfilter, initializeChats]
    · have hfilter : cs.filter chatTruthy = [] := by
        rw [List.filter_eq_nil_iff]
        intro a ha
        simp [hall a ha]
      simp [hcs, hfilter]
  · exact ⟨_, rfl, rfl, rfl⟩

/-- C2 witness at a concrete input: the empty store with key "u". -/
theorem loadChats_favorites_fallback_witness :
    (loadChats [] "u").chats ≠ [] ∧
    loadChats [] "u" =
      { chats := initializeChats, friends := [], friendRequests := [],
        sentFriendRequests := [] } :=
  ⟨(loadChats_favorites_fallback [] "u").1,
   (loadChats_favorites_fallback [] "u").2.1 rfl⟩

/-- Filtering out a key leaves no entry counted for that key. -/
theorem countP_filter_ne_eq_zero (l : List FriendRef) (k : String) :
    (l.filter (fun r => r.key != k)).countP (fun r => r.key == k) = 0 := by
  simp [List.countP_eq_zero, List.mem_filter]

/-- After `addFriend`, an entry with the friend's key is always present. -/
theorem addFriend_mem (s : ChatManagerState) (k u now : String) :
    (addFriend s k u now).2.friends.any (fun f => f.key == k) = true := by
  by_cases hx : s.friends.any (fun f => f.key == k) = true
  · simp [addFriend, hx]
  · simp [addFriend, hx]

/-- C5: `addFriend` is idempotent by key.  Starting from a friends list that
holds at most one entry for `k` (the invariant `addFriend` itself maintains),
a second call with the same key returns `false`, changes nothing, exactly one
entry for `k` remains, and when an entry for `k` already existed the first
call left the list — in particular the stored username — untouched. -/
theorem addFriend_idempotent_by_key (s : ChatManagerState)
    (k name1 name2 now1 now2 : String)
    (h : s.friends.countP (fun f => f.key == k) ≤ 1) :
    (addFriend (addFriend s k name1 now1).2 k name2 now2).1 = false ∧
    (addFriend (addFriend s k name1 now1).2 k name2 now2).2 = (addFriend s k name1 now1).2 ∧
    (addFriend (addFriend s k name1 now1).2 k name2 now2).2.friends.countP
        (fun f => f.key == k) = 1 ∧
    (s.friends.any (fun f => f.key == k) = true →
      (addFriend s k name1 now1).2.friends = s.friends) := by
  by_cases hx : s.friends.any (fun f => f.key == k) = true
  · have h1 : addFriend s k name1 now1 = (false, s) := by
      simp only [addFriend]
      rw [if_pos hx]
    have hpos : 0 < s.friends.countP (fun f => f.key == k) := by
      rw [List.countP_pos_iff]
      obtain ⟨f, hf, hfk⟩ := List.any_eq_true.mp hx
      exact ⟨f, hf, hfk⟩
    have h2 : addFriend s k name2 now2 = (false, s) := by
      simp only [addFriend]
      rw [if_pos hx]
    have h12 : (addFriend s k name1 now1).2 = s := by rw [h1]
    refine ⟨?_, ?_, ?_, fun _ => by rw [h12]⟩
    · rw [h12, h2]
    · rw [h12, h2]
    · rw [h12, h2]
      show s.friends.countP (fun f => f.key == k) = 1
      omega
  · have h1 : addFriend s k name1 now1 =
        (true, { s with friends := s.friends ++
          [({ key := k, username := name1, addedAt := some now1,
              sentAt := none } : FriendRef)] }) := by
      simp only [addFriend]
      rw [if_neg hx]
    have h12 : (addFriend s k name1 now1).2 = { s with friends := s.friends ++
        [({ key := k, username := name1, addedAt := some now1,
            sentAt := none } : FriendRef)] } := by rw [h1]
    have hany2 : (({ s with friends := s.friends ++
        [({ key := k, username := name1, addedAt := some now1,
            sentAt := none } : FriendRef)] } : ChatManagerState).friends.any
          (fun f => f.key == k)) = true := by
      apply List.any_eq_true.mpr
      refine ⟨{ key := k, username := name1, addedAt := some now1, sentAt := none },
        by simp, ?_⟩
      exact beq_self_eq_true k
    have h2 : addFriend { s with friends := s.friends ++
        [({ key := k, username := name1, addedAt := some now1,
            sentAt := none } : FriendRef)] } k name2 now2 =
        (false, { s with friends := s.friends ++
          [({ key := k, username := name1, addedAt := some now1,
              sentAt := none } : FriendRef)] }) := by
      simp only [addFriend]
      rw [if_pos hany2]
    have hzero : s.friends.countP (fun f => f.key == k) = 0 := by
      rw [List.countP_eq_zero]
      intro f hf hfk
      exact hx (List.any_eq_true.mpr ⟨f, hf, hfk⟩)
    refine ⟨?_, ?_, ?_, fun hc => absurd hc hx⟩
    · rw [h12, h2]
    · rw [h12, h2]
    · rw [h12, h2]
      simp [List.countP_append, hzero, List.countP_cons]

/-- C5 witness: adding the same key twice to an empty friends list. -/
theorem addFriend_idempotent_by_key_witness :
    (⟨[], [], [], []⟩ : ChatManagerState).friends.countP (fun f => f.key == "k") ≤ 1 ∧
    (addFriend (addFriend ⟨[], [], [], []⟩ "k" "bob" "t1").2 "k" "carol" "t2").1 = false :=
  ⟨by decide,
   (addFriend_idempotent_by_key ⟨[], [], [], []⟩ "k" "bob" "carol" "t1" "t2" (by decide)).1⟩

/-- Duplicate send: when an entry for the target is already in
`sentFriendRequests`, `sendFriendRequest` returns `false` and changes
neither the in-memory state nor the store. -/
theorem sendFriendRequest_already_sent (s : ChatManagerState) (st : Store)
    (target self uname now : String)
    (hx : s.sentFriendRequests.any (fun r => r.key == target) = true) :
    sendFriendRequest s st target self uname now = (false, s, st) := by
  simp only [sendFriendRequest]
  rw [if_pos hx]

/-- The sender's `sentFriendRequests` after `sendFriendRequest`: unchanged on
a duplicate send, otherwise the new `{key: target, username: sender's own}`
entry is appended — independently of whether the target profile exists. -/
theorem sendFriendRequest_sent_list (s : ChatManagerState) (st : Store)
    (target self uname now : String) :
    (sendFriendRequest s st target self uname now).2.1.sentFriendRequests
      = (if s.sentFriendRequests.any (fun r => r.key == target) then
           s.sentFriendRequests
         else s.sentFriendRequests ++
           [({ key := target, username := uname, addedAt := none,
               sentAt := some now } : FriendRef)]) := by
  by_cases hx : s.sentFriendRequests.any (fun r => r.key == target) = true
  · rw [sendFriendRequest_already_sent s st target self uname now hx, if_pos hx]
  · cases hload : loadUserData st target with
    | some d =>
      simp only [sendFriendRequest]
      rw [if_neg hx, if_neg hx, hload]
    | none =>
      simp only [sendFriendRequest]
      rw [if_neg hx, if_neg hx, hload]

/-- After any `sendFriendRequest`, an entry for the target is present in the
sender's `sentFriendRequests`. -/
theorem sendFriendRequest_mem (s : ChatManagerState) (st : Store)
    (target self uname now : String) :
    (sendFriendRequest s st target self uname now).2.1.sentFriendRequests.any
      (fun r => r.key == target) = true := by
  rw [sendFriendRequest_sent_list]
  by_cases hx : s.sentFriendRequests.any (fun r => r.key == target) = true
  · rw [if_pos hx]
    exact hx
  · rw [if_neg hx]
    apply List.any_eq_true.mpr
    exact ⟨_, List.mem_append_right _ (List.mem_singleton_self _), beq_self_eq_true target⟩

/-- C6: starting from a state with at most one sent entry for the target (the
invariant the duplicate check maintains), `sendFriendRequest` followed by an
identical call has the second call return `false` ("already sent") and change
nothing, and exactly one entry for the target remains in
`sentFriendRequests`. -/
theorem sendFriendRequest_no_duplicate (s : ChatManagerState) (st : Store)
    (target self uname now1 now2 : String)
    (h : s.sentFriendRequests.countP (fun r => r.key == target) ≤ 1) :
    (sendFriendRequest (sendFriendRequest s st target self uname now1).2.1
      (sendFriendRequest s st target self uname now1).2.2 target self uname now2).1
        = false ∧
    (sendFriendRequest (sendFriendRequest s st target self uname now1).2.1
      (sendFriendRequest s st target self uname now1).2.2 target self uname now2).2.1
        = (sendFriendRequest s st target self uname now1).2.1 ∧
    (sendFriendRequest (sendFriendRequest s st target self uname now1).2.1
      (sendFriendRequest s st target self uname now1).2.2 target self uname now2).2.2
        = (sendFriendRequest s st target self uname now1).2.2 ∧
    (sendFriendRequest (sendFriendRequest s st target self uname now1).2.1
      (sendFriendRequest s st target self uname now1).2.2 target self uname
        now2).2.1.sentFriendRequests.countP (fun r => r.key == target) = 1 := by
  have hsecond := sendFriendRequest_already_sent
    (sendFriendRequest s st target self uname now1).2.1
    (sendFriendRequest s st target self uname now1).2.2 target self uname now2
    (sendFriendRequest_mem s st target self uname now1)
  refine ⟨by rw [hsecond], by rw [hsecond], by rw [hsecond], ?_⟩
  rw [hsecond]
  show (sendFriendRequest s st target self uname now1).2.1.sentFriendRequests.countP
    (fun r => r.key == target) = 1
  rw [sendFriendRequest_sent_list]
  by_cases hx : s.sentFriendRequests.any (fun r => r.key == target) = true
  · rw [if_pos hx]
    have hpos : 0 < s.sentFriendRequests.countP (fun r => r.key == target) := by
      rw [List.countP_pos_iff]
      exact List.any_eq_true.mp hx
    omega
  · rw [if_neg hx]
    have hzero : s.sentFriendRequests.countP (fun r => r.key == target) = 0 := by
      rw [List.countP_eq_zero]
      intro f hf hfk
      exact hx (List.any_eq_true.mpr ⟨f, hf, hfk⟩)
    simp [List.countP_append, hzero, List.countP_cons]

/-- C6 witness: two identical sends from an empty state over an empty store. -/
theorem sendFriendRequest_no_duplicate_witness :
    (⟨[], [], [], []⟩ : ChatManagerState).sentFriendRequests.countP
      (fun r => r.key == "T") ≤ 1 ∧
    (sendFriendRequest (sendFriendRequest ⟨[], [], [], []⟩ [] "T" "S" "a" "t1").2.1
      (sendFriendRequest ⟨[], [], [], []⟩ [] "T" "S" "a" "t1").2.2 "T" "S" "a" "t2").1
        = false :=
  ⟨by decide,
   (sendFriendRequest_no_duplicate ⟨[], [], [], []⟩ [] "T" "S" "a" "t1" "t2" (by decide)).1⟩

/-- C10: sending a request to a key that was never sent to before and has no
stored profile still returns `true` and records the request locally, while
the store — hence every stored profile's `friendRequests` — is untouched:
the request is recorded as sent but never delivered. -/
theorem sendFriendRequest_unknown_target (s : ChatManagerState) (st : Store)
    (target self uname now : String)
    (hnot : s.sentFriendRequests.any (fun r => r.key == target) = false)
    (habs : loadUserData st target = none) :
    sendFriendRequest s st target self uname now =
      (true, { s with sentFriendRequests := s.sentFriendRequests ++
        [({ key := target, username := uname, addedAt := none,
            sentAt := some now } : FriendRef)] }, st) := by
  simp only [sendFriendRequest]
  rw [if_neg (by simp [hnot]), habs]

/-- C10 witness: fresh user sends to unknown key "T" over the empty store. -/
theorem sendFriendRequest_unknown_target_witness :
    (⟨[], [], [], []⟩ : ChatManagerState).sentFriendRequests.any
      (fun r => r.key == "T") = false ∧
    loadUserData [] "T" = none ∧
    sendFriendRequest ⟨[], [], [], []⟩ [] "T" "S" "alice" "t0" =
      (true, { chats := [], friends := [], friendRequests := [],
               sentFriendRequests := [{ key := "T", username := "alice",
                                        addedAt := none, sentAt := some "t0" }] },
        []) :=
  ⟨rfl, rfl,
   sendFriendRequest_unknown_target ⟨[], [], [], []⟩ [] "T" "S" "alice" "t0" rfl rfl⟩

/-- C9 counterexample: sender "S" with username "alice" sends to stored
target "T" whose profile's username is "bob".  The entry appended to the
sender's `sentFriendRequests` is `{key := "T", username := "alice"}` — the
target's key paired with the sender's own username, not the target profile's
username "bob" as the claim states. -/
theorem sendFriendRequest_username_counterexample :
    ((sendFriendRequest ⟨[], [], [], []⟩
        [("T", { username := "bob", chats := none, friends := none,
                 friendRequests := none, sentFriendRequests := none })]
        "T" "S" "alice" "t0").2.1.sentFriendRequests.map
      (fun r => (r.key, r.username)) = [("T", "alice")]) ∧
    ((loadUserData [("T", { username := "bob", chats := none, friends := none,
                            friendRequests := none, sentFriendRequests := none })] "T").map
      (fun d => d.username) = some "bob") ∧
    ("alice" : String) ≠ "bob" := by
  refine ⟨?_, ?_, ?_⟩ <;> decide

/-- C9 amended: on a successful `sendFriendRequest` the entry appended to the
sender's `sentFriendRequests` carries the target's key together with the
sender's own username (`currentUsername`) — a snapshot of the sender's, not
the target profile's, identity. -/
theorem sendFriendRequest_records_own_username (s : ChatManagerState) (st : Store)
    (target self uname now : String)
    (hnot : s.sentFriendRequests.any (fun r => r.key == target) = false) :
    (sendFriendRequest s st target self uname now).1 = true ∧
    (sendFriendRequest s st target self uname now).2.1.sentFriendRequests
      = s.sentFriendRequests ++
        [({ key := target, username := uname, addedAt := none,
            sentAt := some now } : FriendRef)] := by
  constructor
  · cases hload : loadUserData st target with
    | some d =>
      simp only [sendFriendRequest]
      rw [if_neg (by simp [hnot]), hload]
    | none =>
      simp only [sendFriendRequest]
      rw [if_neg (by simp [hnot]), hload]
  · rw [sendFriendRequest_sent_list, if_neg (by simp [hnot])]

/-- C9 amended witness: fresh sender "S"/"alice" sends to "T". -/
theorem sendFriendRequest_records_own_username_witness :
    (⟨[], [], [], []⟩ : ChatManagerState).sentFriendRequests.any
      (fun r => r.key == "T") = false ∧
    ((sendFriendRequest ⟨[], [], [], []⟩ [] "T" "S" "alice" "t0").1 = true ∧
     (sendFriendRequest ⟨[], [], [], []⟩ [] "T" "S" "alice" "t0").2.1.sentFriendRequests
       = (⟨[], [], [], []⟩ : ChatManagerState).sentFriendRequests ++
         [({ key := "T", username := "alice", addedAt := none,
             sentAt := some "t0" } : FriendRef)]) :=
  ⟨rfl, sendFriendRequest_records_own_username ⟨[], [], [], []⟩ [] "T" "S" "alice" "t0" rfl⟩

/-- C8 counterexample: starting from a fresh state over an empty store with
the save failing, the app-level createChat reports failure, yet the new chat
remains in the in-memory chat list — the failed operation's mutation is
retained, contradicting "in-memory state left unchanged". -/
theorem appCreateChat_failure_counterexample :
    (appCreateChat ⟨[], [], [], []⟩ [] false "Team" "" "u" "alice" 5 "t0").1 = false ∧
    (appCreateChat ⟨[], [], [], []⟩ [] false "Team" "" "u" "alice" 5 "t0").2.1.chats
      ≠ (⟨[], [], [], []⟩ : ChatManagerState).chats := by
  refine ⟨?_, ?_⟩ <;> decide

/-- C8 amended: when the storage save fails during the app-level createChat,
the operation reports failure and the store is left unchanged, but the
in-memory state is NOT left unchanged: the new chat stays appended to the
chat list (the `catch` only alerts and performs no rollback). -/
theorem appCreateChat_save_failure (s : ChatManagerState) (st : Store)
    (nameInput descInput userKey username : String) (nowMs : Nat) (nowIso : String)
    (h : ¬ jsTrim nameInput = "") :
    (appCreateChat s st false nameInput descInput userKey username nowMs nowIso).1
      = false ∧
    (appCreateChat s st false nameInput descInput userKey username nowMs nowIso).2.2
      = st ∧
    (appCreateChat s st false nameInput descInput userKey username nowMs nowIso).2.1.chats
      = s.chats ++
        [({ id := some nowMs, name := some (jsTrim (jsTrim nameInput)),
            description := some (jsTrim descInput), type := none, participants := none,
            messages := some [], createdAt := some nowIso } : Chat)] := by
  have hb : (jsTrim nameInput == "") = false := by
    simp [h]
  refine ⟨?_, ?_, ?_⟩ <;> simp [appCreateChat, createChat, hb]

/-- C8 amended witness: failing save while creating chat "Team". -/
theorem appCreateChat_save_failure_witness :
    ¬ (jsTrim "Team" = "") ∧
    (appCreateChat ⟨[], [], [], []⟩ [] false "Team" "" "u" "alice" 5 "t0").1 = false :=
  ⟨by decide,
   (appCreateChat_save_failure ⟨[], [], [], []⟩ [] "Team" "" "u" "alice" 5 "t0"
     (by decide)).1⟩

/-- C4 counterexample: an in-memory state whose chat list is empty (and so
vacuously contains only chats with an id and a name) does not round-trip:
`loadChats` re-seeds the Favorites chat, so the loaded chat list equals
neither the original list nor its defensively filtered version. -/
theorem saveChats_loadChats_counterexample :
    (∀ c ∈ (⟨[], [], [], []⟩ : ChatManagerState).chats, chatTruthy c = true) ∧
    (loadChats (saveChats ⟨[], [], [], []⟩ [] "u" "alice") "u").chats
      ≠ (⟨[], [], [], []⟩ : ChatManagerState).chats ∧
    (loadChats (saveChats ⟨[], [], [], []⟩ [] "u" "alice") "u").chats
      ≠ (⟨[], [], [], []⟩ : ChatManagerState).chats.filter chatTruthy := by
  refine ⟨?_, ?_, ?_⟩ <;> decide

/-- C4 amended: for a NONEMPTY in-memory chat list whose chats all have an id
and a name, `saveChats` followed by `loadChats` on the same key restores the
whole working set exactly: chats, friends, friendRequests and
sentFriendRequests. -/
theorem saveChats_loadChats_roundtrip (s : ChatManagerState) (st : Store)
    (userKey username : String)
    (hvalid : ∀ c ∈ s.chats, chatTruthy c = true)
    (hne : s.chats ≠ []) :
    loadChats (saveChats s st userKey username) userKey = s := by
  have hfilter : s.chats.filter chatTruthy = s.chats := List.filter_eq_self.mpr hvalid
  have hlen : ¬ (s.chats.length = 0) := by
    simpa [List.length_eq_zero] using hne
  unfold loadChats saveChats
  rw [loadUserData_saveUserData_self]
  simp [hfilter, hlen]

/-- C4 amended witness: the freshly initialized state round-trips. -/
theorem saveChats_loadChats_roundtrip_witness :
    (∀ c ∈ (⟨initializeChats, [], [], []⟩ : ChatManagerState).chats,
      chatTruthy c = true) ∧
    (⟨initializeChats, [], [], []⟩ : ChatManagerState).chats ≠ [] ∧
    loadChats (saveChats ⟨initializeChats, [], [], []⟩ [] "u" "alice") "u"
      = ⟨initializeChats, [], [], []⟩ :=
  ⟨by decide, by decide,
   saveChats_loadChats_roundtrip ⟨initializeChats, [], [], []⟩ [] "u" "alice"
     (by decide) (by decide)⟩

/-- C1: when a profile is stored under the requester's key,
`acceptFriendRequest` leaves (i) an entry for the requester in self's
friends, (ii) no entry for the requester in self's `friendRequests`, and in
the stored requester profile (iii) an entry for self in its friends and
(iv) no entry for self in its `sentFriendRequests`. -/
theorem acceptFriendRequest_spec (s : ChatManagerState) (st : Store)
    (requesterKey requesterUsername selfKey selfUsername now : String)
    (rd : UserData) (h : loadUserData st requesterKey = some rd) :
    ((acceptFriendRequest s st requesterKey requesterUsername selfKey selfUsername
        now).1.friends.any (fun f => f.key == requesterKey) = true) ∧
    ((acceptFriendRequest s st requesterKey requesterUsername selfKey selfUsername
        now).1.friendRequests.countP (fun r => r.key == requesterKey) = 0) ∧
    (∃ rd', loadUserData (acceptFriendRequest s st requesterKey requesterUsername
          selfKey selfUsername now).2 requesterKey = some rd' ∧
      (rd'.friends.getD []).any (fun f => f.key == selfKey) = true ∧
      (rd'.sentFriendRequests.getD []).countP (fun r => r.key == selfKey) = 0) := by
  cases hsent : rd.sentFriendRequests with
  | some l =>
    simp only [acceptFriendRequest, h, hsent]
    by_cases hfr : (rd.friends.getD []).any (fun f => f.key == selfKey) = true
    · rw [if_pos hfr]
      refine ⟨addFriend_mem s requesterKey requesterUsername now, ?_, ?_⟩
      · exact countP_filter_ne_eq_zero _ requesterKey
      · exact ⟨_, loadUserData_saveUserData_self st requesterKey _, hfr,
          countP_filter_ne_eq_zero l selfKey⟩
    · rw [if_neg hfr]
      refine ⟨addFriend_mem s requesterKey requesterUsername now, ?_, ?_⟩
      · exact countP_filter_ne_eq_zero _ requesterKey
      · refine ⟨_, loadUserData_saveUserData_self st requesterKey _, ?_,
          countP_filter_ne_eq_zero l selfKey⟩
        apply List.any_eq_true.mpr
        exact ⟨_, List.mem_append_right _ (List.mem_singleton_self _),
          beq_self_eq_true selfKey⟩
  | none =>
    simp only [acceptFriendRequest, h, hsent]
    by_cases hfr : (rd.friends.getD []).any (fun f => f.key == selfKey) = true
    · rw [if_pos hfr]
      refine ⟨addFriend_mem s requesterKey requesterUsername now, ?_, ?_⟩
      · exact countP_filter_ne_eq_zero _ requesterKey
      · exact ⟨_, loadUserData_saveUserData_self st requesterKey _, hfr,
          by simp [hsent]⟩
    · rw [if_neg hfr]
      refine ⟨addFriend_mem s requesterKey requesterUsername now, ?_, ?_⟩
      · exact countP_filter_ne_eq_zero _ requesterKey
      · refine ⟨_, loadUserData_saveUserData_self st requesterKey _, ?_,
          by simp [hsent]⟩
        apply List.any_eq_true.mpr
        exact ⟨_, List.mem_append_right _ (List.mem_singleton_self _),
          beq_self_eq_true selfKey⟩

/-- C1 witness: "bob" (key "R") has sent a request to "alice" (key "S");
alice accepts it. -/
theorem acceptFriendRequest_spec_witness :
    loadUserData
        [("R", { username := "bob", chats := none, friends := none,
                 friendRequests := none,
                 sentFriendRequests := some [{ key := "S", username := "bob",
                                               addedAt := none, sentAt := some "t1" }] })]
        "R"
      = some { username := "bob", chats := none, friends := none,
               friendRequests := none,
               sentFriendRequests := some [{ key := "S", username := "bob",
                                             addedAt := none, sentAt := some "t1" }] } ∧
    ((acceptFriendRequest
        ⟨[], [], [{ key := "R", username := "bob", addedAt := none, sentAt := some "t1" }], []⟩
        [("R", { username := "bob", chats := none, friends := none,
                 friendRequests := none,
                 sentFriendRequests := some [{ key := "S", username := "bob",
                                               addedAt := none, sentAt := some "t1" }] })]
        "R" "bob" "S" "alice" "t2").1.friends.any (fun f => f.key == "R") = true) :=
  ⟨rfl,
   (acceptFriendRequest_spec
     ⟨[], [], [{ key := "R", username := "bob", addedAt := none, sentAt := some "t1" }], []⟩
     [("R", { username := "bob", chats := none, friends := none,
              friendRequests := none,
              sentFriendRequests := some [{ key := "S", username := "bob",
                                            addedAt := none, sentAt := some "t1" }] })]
     "R" "bob" "S" "alice" "t2" _ rfl).1⟩

/-- Iterating `addMessage` from a chat holding at most 1000 messages leaves
exactly the suffix of the full append sequence that fits under the cap. -/
theorem addMessages_messages (inputs : List MsgInput) :
    ∀ (chat : Chat) (l : List Message), chat.messages = some l → l.length ≤ 1000 →
    (addMessages chat inputs).messages
      = some ((l ++ inputs.map mkMessage).drop ((l.length + inputs.length) - 1000)) := by
  induction inputs with
  | nil =>
    intro chat l hl hlen
    simp [addMessages, hl, Nat.sub_eq_zero_of_le hlen]
  | cons i rest ih =>
    intro chat l hl hlen
    have hstep : addMessages chat (i :: rest) = addMessages (addMessage chat i) rest := rfl
    rw [hstep]
    rcases Nat.lt_or_ge l.length 1000 with hlt | hge
    · have hcond : ¬ ((l ++ [mkMessage i]).length > 1000) := by
        simp only [List.length_append, List.length_cons, List.length_nil]
        omega
      have hmsg : (addMessage chat i).messages = some (l ++ [mkMessage i]) := by
        simp only [addMessage, hl, Option.getD_some]
        rw [if_neg hcond]
      have hlen' : (l ++ [mkMessage i]).length ≤ 1000 := by
        simp only [List.length_append, List.length_cons, List.length_nil]
        omega
      rw [ih _ _ hmsg hlen']
      have hn : (l ++ [mkMessage i]).length + rest.length - 1000
          = l.length + (i :: rest).length - 1000 := by
        simp only [List.length_append, List.length_cons, List.length_nil]
        omega
      rw [hn, List.map_cons, List.append_assoc, List.singleton_append]
    · have h1000 : l.length = 1000 := Nat.le_antisymm hlen hge
      have hcond : (l ++ [mkMessage i]).length > 1000 := by
        simp only [List.length_append, List.length_cons, List.length_nil]
        omega
      have hmsg : (addMessage chat i).messages
          = some ((l ++ [mkMessage i]).drop ((l ++ [mkMessage i]).length - 1000)) := by
        simp only [addMessage, hl, Option.getD_some]
        rw [if_pos hcond]
      have hdrop1 : (l ++ [mkMessage i]).length - 1000 = 1 := by
        simp only [List.length_append, List.length_cons, List.length_nil]
        omega
      rw [hdrop1] at hmsg
      have hlen' : ((l ++ [mkMessage i]).drop 1).length ≤ 1000 := by
        simp only [List.length_drop, List.length_append, List.length_cons, List.length_nil]
        omega
      rw [ih _ _ hmsg hlen']
      have hl1 : ((l ++ [mkMessage i]).drop 1).length = 1000 := by
        simp only [List.length_drop, List.length_append, List.length_cons, List.length_nil]
        omega
      have hle : 1 ≤ (l ++ [mkMessage i]).length := by
        simp only [List.length_append, List.length_cons, List.length_nil]
        omega
      have hd : ((l ++ [mkMessage i]).drop 1) ++ rest.map mkMessage
          = ((l ++ [mkMessage i]) ++ rest.map mkMessage).drop 1 :=
        (List.drop_append_of_le_length hle).symm
      rw [hl1, hd, List.drop_drop]
      have hn : 1 + (1000 + rest.length - 1000) = l.length + (i :: rest).length - 1000 := by
        simp only [List.length_cons, h1000]
        omega
      rw [hn, List.map_cons, List.append_assoc, List.singleton_append]

/-- C3: after any `addMessage` call a chat holds at most 1000 messages, and
1001 appends starting from an empty message list leave exactly the most
recent 1000 in their original append order — the full mapped input sequence
minus its oldest (first) element. -/
theorem addMessage_cap_1000 (chat : Chat) (inputs : List MsgInput)
    (hm : chat.messages = some []) (hlen : inputs.length = 1001) :
    (∀ (c : Chat) (i : MsgInput),
      ((addMessage c i).messages.getD []).length ≤ 1000) ∧
    (addMessages chat inputs).messages = some ((inputs.map mkMessage).drop 1) ∧
    ((inputs.map mkMessage).drop 1).length = 1000 := by
  refine ⟨?_, ?_, ?_⟩
  · intro c i
    simp only [addMessage, Option.getD_some]
    split
    · rename_i hgt
      simp only [List.length_drop]
      omega
    · rename_i hle
      simp only [List.length_append, List.length_cons, List.length_nil] at hle ⊢
      omega
  · have h := addMessages_messages inputs chat [] hm (by simp)
    rw [h]
    simp [hlen]
  · simp [hlen]

/-- C3 witness: 1001 identical appends into a chat with no messages. -/
theorem addMessage_cap_1000_witness :
    ((⟨some 1, some "c", none, none, none, some [], none⟩ : Chat).messages
      = some []) ∧
    (List.replicate 1001
      ({ author := "a", text := "hi", type := "text", fileData := none,
         fileName := none, time := "00:00", timestamp := "t" } : MsgInput)).length
      = 1001 ∧
    (addMessages ⟨some 1, some "c", none, none, none, some [], none⟩
        (List.replicate 1001
          ({ author := "a", text := "hi", type := "text", fileData := none,
             fileName := none, time := "00:00", timestamp := "t" } : MsgInput))).messages
      = some (((List.replicate 1001
          ({ author := "a", text := "hi", type := "text", fileData := none,
             fileName := none, time := "00:00", timestamp := "t" } : MsgInput)).map
            mkMessage).drop 1) :=
  ⟨rfl, by rw [List.length_replicate],
   (addMessage_cap_1000 _ _ rfl (by rw [List.length_replicate])).2.1⟩
